import Mathlib

/-!
Verification of the ticketing-app reservation engine.

The Go sources embedded here: package `domain` (stations, routes, seats,
services, tickets, bookings) and package `reservation` (the `System`
holding the booking store and implementing `MakeReservation` and the
conductor queries). Go maps are modelled as insertion-ordered association
lists; Go's `(value, bool)` returns as `Option`; the `panic` in `NewRoute`
as `Option Route`; `time.Time` as a calendar date plus an ignored
time-of-day component, since the code only ever inspects the calendar date.
-/

namespace Ticketing

/-- Model of Go `time.Time` as used by the code: a calendar date
(`Date()` components) plus a time-of-day that no code path inspects. -/
structure DateTime where
  year : Int
  month : Nat
  day : Nat
  timeOfDay : Nat
deriving DecidableEq, Repr

structure Station where
  name : String
deriving DecidableEq, Repr

structure Stop where
  station : Station
  distance : Int
  stopOrder : Nat
deriving DecidableEq, Repr

structure Route where
  id : String
  name : String
  stops : List Stop
deriving DecidableEq, Repr

inductive ComfortZone where
  | firstClass
  | secondClass
deriving DecidableEq, Repr

structure Seat where
  number : String
  comfortZone : ComfortZone
  carriageID : String
deriving DecidableEq, Repr

structure Carriage where
  id : String
  seats : List Seat
deriving DecidableEq, Repr

structure Service where
  id : String
  route : Route
  dateTime : DateTime
  carriages : List Carriage
deriving DecidableEq, Repr

structure Passenger where
  name : String
deriving DecidableEq, Repr

structure Ticket where
  seat : Seat
  origin : Station
  destination : Station
  service : Service
  passenger : Passenger
deriving DecidableEq, Repr

structure Booking where
  id : String
  passengers : List Passenger
  tickets : List Ticket
  createdAt : DateTime
deriving DecidableEq, Repr

structure SeatRequest where
  carriageID : String
  seatNumber : String
deriving DecidableEq, Repr

structure ReservationRequest where
  serviceID : String
  origin : String
  destination : String
  passengers : List Passenger
  seatRequests : List SeatRequest
  date : DateTime
deriving DecidableEq, Repr

def NewStation (name : String) : Station := ⟨name⟩

/-- The stop-building loop of `NewRoute`: `stops[i] = Stop{station, distances[i], i}`. -/
def mkStops : Nat → List Station → List Int → List Stop
  | _, [], _ => []
  | _, _ :: _, [] => []
  | i, s :: ss, d :: ds => ⟨s, d, i⟩ :: mkStops (i + 1) ss ds

/-- Go `NewRoute`; the `panic` on a station/distance length mismatch is
modelled as `none`. -/
def NewRoute (id name : String) (stations : List Station) (distances : List Int) :
    Option Route :=
  if stations.length ≠ distances.length then none
  else some { id := id, name := name, stops := mkStops 0 stations distances }

def NewService (id : String) (route : Route) (dateTime : DateTime)
    (carriages : List Carriage) : Service :=
  { id := id, route := route, dateTime := dateTime, carriages := carriages }

/-- Go `NewBooking`; `time.Now()` becomes the explicit `now` argument. -/
def NewBooking (id : String) (passengers : List Passenger) (tickets : List Ticket)
    (now : DateTime) : Booking :=
  { id := id, passengers := passengers, tickets := tickets, createdAt := now }

def Route.GetStationByName (r : Route) (name : String) : Option Station :=
  (r.stops.find? (fun stop => stop.station.name == name)).map (·.station)

/-- The indexed scan of `GetStopIndex`, counting from `i`. -/
def getStopIndexFrom (i : Int) (stationName : String) : List Stop → Int × Bool
  | [] => (-1, false)
  | stop :: rest =>
    if stop.station.name == stationName then (i, true)
    else getStopIndexFrom (i + 1) stationName rest

/-- Go `Route.GetStopIndex`: the index of the first stop whose station has
the given name, or `(-1, false)`. -/
def Route.GetStopIndex (r : Route) (stationName : String) : Int × Bool :=
  getStopIndexFrom 0 stationName r.stops

def Route.IsValidOriginDestination (r : Route) (origin destination : String) : Bool :=
  let oi := r.GetStopIndex origin
  let di := r.GetStopIndex destination
  if !oi.2 || !di.2 then false
  else decide (oi.1 < di.1)

/-- Go `Service.GetSeatByID`: the two-level scan over carriages and seats.
A carriage with a matching id but no matching seat does not stop the scan. -/
def seatInCarriages (carriageID seatNumber : String) : List Carriage → Option Seat
  | [] => none
  | c :: cs =>
    if c.id == carriageID then
      match c.seats.find? (fun seat => seat.number == seatNumber) with
      | some seat => some seat
      | none => seatInCarriages carriageID seatNumber cs
    else seatInCarriages carriageID seatNumber cs

def Service.GetSeatByID (s : Service) (carriageID seatNumber : String) : Option Seat :=
  seatInCarriages carriageID seatNumber s.carriages

inductive ReservationErrorCode where
  | serviceNotFound
  | invalidRoute
  | passengerSeatMismatch
  | seatNotFound
  | seatAlreadyBooked
deriving DecidableEq, Repr

structure ReservationError where
  message : String
  code : ReservationErrorCode
deriving DecidableEq, Repr

/-- Go maps modelled as insertion-ordered association lists. -/
def mapFind (m : List (String × α)) (k : String) : Option α :=
  (m.find? (fun p => p.1 == k)).map (·.2)

def mapInsert (m : List (String × α)) (k : String) (v : α) : List (String × α) :=
  match m with
  | [] => [(k, v)]
  | p :: rest => if p.1 == k then (k, v) :: rest else p :: mapInsert rest k v

structure System where
  bookings : List (String × Booking)
  services : List (String × Service)
  routes : List (String × Route)
  nextBookingID : Nat
deriving DecidableEq, Repr

def NewSystem : System :=
  { bookings := [], services := [], routes := [], nextBookingID := 1 }

def System.AddRoute (rs : System) (route : Route) : System :=
  { rs with routes := mapInsert rs.routes route.id route }

def System.AddService (rs : System) (service : Service) : System :=
  { rs with services := mapInsert rs.services service.id service }

/-- Go `System.isSameDate`: compare `Date()` components only. -/
def isSameDate (date1 date2 : DateTime) : Bool :=
  date1.year == date2.year && date1.month == date2.month && date1.day == date2.day

/-- The per-ticket match of `isSeatBooked`. -/
def ticketMatchesSeat (serviceID carriageID seatNumber : String) (date : DateTime)
    (ticket : Ticket) : Bool :=
  ticket.service.id == serviceID &&
    ticket.seat.carriageID == carriageID &&
    ticket.seat.number == seatNumber &&
    isSameDate ticket.service.dateTime date

/-- Go `System.isSeatBooked`: scan every booking's tickets. -/
def System.isSeatBooked (rs : System) (serviceID carriageID seatNumber : String)
    (date : DateTime) : Bool :=
  rs.bookings.any (fun kb =>
    kb.2.tickets.any (ticketMatchesSeat serviceID carriageID seatNumber date))

/-- Zero-padded decimal of Go `fmt.Sprintf("%04d", n)` for `n ≥ 0`. -/
def pad4 (n : Nat) : String :=
  let s := toString n
  if s.length < 4 then String.mk (List.replicate (4 - s.length) '0') ++ s else s

/-- The seat-validation loop of `MakeReservation`: for each (seat request,
passenger) pair in order, the seat must exist (`SEAT_NOT_FOUND`) and must
not be booked (`SEAT_ALREADY_BOOKED`); on success, the ticket list. -/
def processSeatRequests (rs : System) (service : Service) (serviceID : String)
    (originStation destStation : Station) (date : DateTime) :
    List (SeatRequest × Passenger) → Except ReservationError (List Ticket)
  | [] => .ok []
  | (seatReq, p) :: rest =>
    match service.GetSeatByID seatReq.carriageID seatReq.seatNumber with
    | none =>
      .error { message := "Seat " ++ seatReq.seatNumber ++ " in carriage " ++
                 seatReq.carriageID ++ " not found in service " ++ serviceID,
               code := .seatNotFound }
    | some seat =>
      if rs.isSeatBooked serviceID seatReq.carriageID seatReq.seatNumber date then
        .error { message := "Seat " ++ seatReq.seatNumber ++ " in carriage " ++
                   seatReq.carriageID ++ " is already booked for service " ++ serviceID,
                 code := .seatAlreadyBooked }
      else
        match processSeatRequests rs service serviceID originStation destStation date rest with
        | .error e => .error e
        | .ok tickets =>
          .ok ({ seat := seat, origin := originStation, destination := destStation,
                 service := service, passenger := p } :: tickets)

/-- Go `System.MakeReservation`. The receiver is threaded explicitly: the
returned `System` is the engine state after the call (`time.Now()` inside
`NewBooking` becomes the `now` argument). -/
def System.MakeReservation (rs : System) (req : ReservationRequest) (now : DateTime) :
    Except ReservationError Booking × System :=
  match mapFind rs.services req.serviceID with
  | none =>
    (.error { message := "Service " ++ req.serviceID ++ " not found",
              code := .serviceNotFound }, rs)
  | some service =>
    if !(service.route.IsValidOriginDestination req.origin req.destination) then
      (.error { message := "Invalid route from " ++ req.origin ++ " to " ++
                  req.destination ++ " for service " ++ req.serviceID,
                code := .invalidRoute }, rs)
    else if req.passengers.length ≠ req.seatRequests.length then
      (.error { message := "Number of passengers must match number of seat requests",
                code := .passengerSeatMismatch }, rs)
    else
      let originStation := (service.route.GetStationByName req.origin).getD ⟨""⟩
      let destStation := (service.route.GetStationByName req.destination).getD ⟨""⟩
      match processSeatRequests rs service req.serviceID originStation destStation
          req.date (req.seatRequests.zip req.passengers) with
      | .error e => (.error e, rs)
      | .ok tickets =>
        let bookingID := "B" ++ pad4 rs.nextBookingID
        let booking := NewBooking bookingID req.passengers tickets now
        (.ok booking,
         { rs with bookings := mapInsert rs.bookings bookingID booking,
                   nextBookingID := rs.nextBookingID + 1 })

def System.GetBooking (rs : System) (bookingID : String) : Option Booking :=
  mapFind rs.bookings bookingID

def System.GetAllBookings (rs : System) : List Booking :=
  rs.bookings.map (·.2)

/-- The nested booking/ticket loop shared by the conductor queries:
append the passenger of every ticket satisfying `f`, in store order. -/
def collectPassengers (f : Ticket → Bool) : List (String × Booking) → List Passenger
  | [] => []
  | kb :: rest =>
    (kb.2.tickets.filter f).map (·.passenger) ++ collectPassengers f rest

def System.GetPassengersBoardingAt (rs : System) (serviceID stationName : String)
    (date : DateTime) : List Passenger :=
  collectPassengers (fun t =>
    t.service.id == serviceID && t.origin.name == stationName &&
      isSameDate t.service.dateTime date) rs.bookings

def System.GetPassengersAlightingAt (rs : System) (serviceID stationName : String)
    (date : DateTime) : List Passenger :=
  collectPassengers (fun t =>
    t.service.id == serviceID && t.destination.name == stationName &&
      isSameDate t.service.dateTime date) rs.bookings

/-- Go `System.GetPassengersBetweenStations`: resolve both stations on the
registered service's route, return `[]` on any lookup failure, swap the
indices so `stop1Index ≤ stop2Index`, then keep tickets whose journey
covers the segment (per-ticket indices come from `GetStopIndex`, which
yields `-1` for a name absent from the route). -/
def System.GetPassengersBetweenStations (rs : System) (serviceID station1 station2 : String)
    (date : DateTime) : List Passenger :=
  match mapFind rs.services serviceID with
  | none => []
  | some service =>
    let r1 := service.route.GetStopIndex station1
    let r2 := service.route.GetStopIndex station2
    if !r1.2 || !r2.2 then []
    else
      let lo := if r1.1 ≥ r2.1 then r2.1 else r1.1
      let hi := if r1.1 ≥ r2.1 then r1.1 else r2.1
      collectPassengers (fun t =>
        t.service.id == serviceID && isSameDate t.service.dateTime date &&
          decide ((service.route.GetStopIndex t.origin.name).1 ≤ lo) &&
          decide ((service.route.GetStopIndex t.destination.name).1 ≥ hi)) rs.bookings

/-- The nested booking/ticket search of `GetPassengerOnSeat`: the first
ticket satisfying `f`, in store order. -/
def findTicket (f : Ticket → Bool) : List (String × Booking) → Option Ticket
  | [] => none
  | kb :: rest =>
    match kb.2.tickets.find? f with
    | some t => some t
    | none => findTicket f rest

def System.GetPassengerOnSeat (rs : System) (serviceID carriageID seatNumber : String)
    (date : DateTime) : Option Passenger :=
  (findTicket (ticketMatchesSeat serviceID carriageID seatNumber date) rs.bookings).map
    (·.passenger)

/-! Spec-side definitions, written from the specification's words, to be
compared with the embedded code above. -/

/-- The error code of a reservation outcome, `none` on success. -/
def resultCode {α : Type} : Except ReservationError α → Option ReservationErrorCode
  | .error e => some e.code
  | .ok _ => none

/-- Spec §4.3 step 4, per seat request in list order: seat must exist in
the named carriage else `SeatNotFound`, seat must not already be booked
else `SeatAlreadyBooked`; the first failure wins. -/
def firstSeatFailure (rs : System) (service : Service) (serviceID : String)
    (date : DateTime) : List SeatRequest → Option ReservationErrorCode
  | [] => none
  | sr :: rest =>
    if (service.GetSeatByID sr.carriageID sr.seatNumber).isNone then
      some .seatNotFound
    else if rs.isSeatBooked serviceID sr.carriageID sr.seatNumber date then
      some .seatAlreadyBooked
    else firstSeatFailure rs service serviceID date rest

/-- Spec §4.3: the first failing check of the ordered validation list
(1) service exists, (2) valid forward origin/destination pair,
(3) passenger count equals seat-request count, (4) the per-seat checks
in list order; `none` when every check passes. -/
def firstFailingCheck (rs : System) (req : ReservationRequest) :
    Option ReservationErrorCode :=
  match mapFind rs.services req.serviceID with
  | none => some .serviceNotFound
  | some service =>
    if !(service.route.IsValidOriginDestination req.origin req.destination) then
      some .invalidRoute
    else if req.passengers.length ≠ req.seatRequests.length then
      some .passengerSeatMismatch
    else firstSeatFailure rs service req.serviceID req.date req.seatRequests

/-- Every ticket of every stored booking, in store order. -/
def allStoredTickets (rs : System) : List Ticket :=
  (rs.bookings.map (fun kb => kb.2.tickets)).flatten

/-- Spec §4.4 `passengersBetweenStations`, written from the spec's words:
resolve both station names on the registered service's route (empty result
if the service or either station is missing), take the lower index as the
segment start and the higher as the segment end, and keep exactly the
tickets matching the service id and date whose origin stop index is at
most the segment start and whose destination stop index is at least the
segment end. -/
def betweenStationsSpec (rs : System) (serviceID station1 station2 : String)
    (date : DateTime) : List Passenger :=
  match mapFind rs.services serviceID with
  | none => []
  | some service =>
    let r1 := service.route.GetStopIndex station1
    let r2 := service.route.GetStopIndex station2
    if r1.2 && r2.2 then
      let segStart := min r1.1 r2.1
      let segEnd := max r1.1 r2.1
      ((allStoredTickets rs).filter (fun t =>
        t.service.id == serviceID && isSameDate t.service.dateTime date &&
          decide ((service.route.GetStopIndex t.origin.name).1 ≤ segStart) &&
          decide (segEnd ≤ (service.route.GetStopIndex t.destination.name).1))).map
        (·.passenger)
    else []

/-! Concrete fixture states, mirroring the repository's test setup, used
below to evaluate the theorems on explicit inputs. -/

/-- The three-stop route A(0) → B(1) → C(2). -/
def routeABC : Route :=
  (NewRoute "R1" "ABC" [NewStation "A", NewStation "B", NewStation "C"] [0, 1, 2]).getD
    ⟨"", "", []⟩

def svcABC : Service :=
  NewService "S" routeABC ⟨2021, 1, 1, 0⟩ [⟨"A", [⟨"A1", .firstClass, "A"⟩]⟩]

def sysABC : System := (NewSystem.AddRoute routeABC).AddService svcABC

def dC2 : DateTime := ⟨2021, 1, 1, 5⟩

/-- State of `sysABC` after booking passenger P onto seat A1, B → C. -/
def sysC2 : System :=
  (sysABC.MakeReservation ⟨"S", "B", "C", [⟨"P"⟩], [⟨"A", "A1"⟩], dC2⟩ dC2).2

/-- The Paris(0) → Calais(300) → Amsterdam(520) route of the test suite. -/
def routeParis : Route :=
  (NewRoute "R002" "Paris-Amsterdam"
    [NewStation "Paris", NewStation "Calais", NewStation "Amsterdam"]
    [0, 300, 520]).getD ⟨"", "", []⟩

def svc5160 : Service :=
  NewService "5160" routeParis ⟨2021, 4, 1, 8⟩
    [⟨"A", [⟨"A1", .firstClass, "A"⟩, ⟨"A2", .firstClass, "A"⟩]⟩]

def sys5160 : System := (NewSystem.AddRoute routeParis).AddService svc5160

def dApr1 : DateTime := ⟨2021, 4, 1, 0⟩

def dApr2 : DateTime := ⟨2021, 4, 2, 0⟩

/-- State of `sys5160` after booking John Doe onto seat A1 for the service day. -/
def sysBooked : System :=
  (sys5160.MakeReservation
    ⟨"5160", "Paris", "Amsterdam", [⟨"John Doe"⟩], [⟨"A", "A1"⟩], dApr1⟩ dApr1).2

/-- State of `sys5160` after booking X onto seat A1 under the off-schedule date
2021-04-02 (the service operates on 2021-04-01). -/
def sysOff : System :=
  (sys5160.MakeReservation
    ⟨"5160", "Paris", "Amsterdam", [⟨"X"⟩], [⟨"A", "A1"⟩], dApr2⟩ dApr2).2

/-- A valid one-passenger request on `sysABC`: seat A1, A → B. -/
def reqW : ReservationRequest := ⟨"S", "A", "B", [⟨"W"⟩], [⟨"A", "A1"⟩], dC2⟩

/-- The booking `sysABC` returns for `reqW`. -/
def bW : Booking :=
  ((sysABC.MakeReservation reqW dC2).1.toOption).getD (NewBooking "" [] [] dC2)

/-! Helper lemmas. -/

theorem mapFind_mapInsert_self (m : List (String × α)) (k : String) (v : α) :
    mapFind (mapInsert m k v) k = some v := by
  induction m with
  | nil => simp [mapFind, mapInsert]
  | cons p rest ih =>
    by_cases h : p.1 = k
    · simp [mapFind, mapInsert, h]
    · simp only [mapInsert, beq_iff_eq, h, if_false]
      simpa [mapFind, List.find?_cons_of_neg, beq_iff_eq, h] using ih

theorem isSeatBooked_iff (rs : System) (sid cid sn : String) (date : DateTime) :
    rs.isSeatBooked sid cid sn date = true ↔
      ∃ kb ∈ rs.bookings, ∃ t ∈ kb.2.tickets,
        t.service.id = sid ∧ t.seat.carriageID = cid ∧ t.seat.number = sn ∧
        isSameDate t.service.dateTime date = true := by
  simp [System.isSeatBooked, ticketMatchesSeat, List.any_eq_true, Bool.and_eq_true,
    beq_iff_eq, and_assoc]

theorem fst_mem_of_mem_zip {α β : Type} {l1 : List α} {l2 : List β} {pr : α × β}
    (h : pr ∈ l1.zip l2) : pr.1 ∈ l1 := by
  induction l1 generalizing l2 with
  | nil => simp [List.zip] at h
  | cons a l1 ih =>
    cases l2 with
    | nil => simp [List.zip] at h
    | cons b l2 =>
      rcases List.mem_cons.mp h with h | h
      · subst h; exact List.mem_cons_self _ _
      · exact List.mem_cons_of_mem _ (ih h)

theorem exists_mem_zip_of_mem {α β : Type} {l1 : List α} {l2 : List β} {a : α}
    (h : a ∈ l1) (hlen : l1.length = l2.length) : ∃ b, (a, b) ∈ l1.zip l2 := by
  induction l1 generalizing l2 with
  | nil => simp at h
  | cons x l1 ih =>
    cases l2 with
    | nil => simp at hlen
    | cons y l2 =>
      rcases List.mem_cons.mp h with h | h
      · exact ⟨y, by simp [h]⟩
      · obtain ⟨b, hb⟩ := ih h (by simpa using hlen)
        exact ⟨b, List.mem_cons_of_mem _ hb⟩

theorem processSeatRequests_ok_shape (rs : System) (service : Service) (sid : String)
    (o d : Station) (date : DateTime) :
    ∀ (pairs : List (SeatRequest × Passenger)) (ts : List Ticket),
      processSeatRequests rs service sid o d date pairs = .ok ts →
      ts.length = pairs.length ∧
        ∀ k (hk : k < pairs.length) (hk' : k < ts.length),
          ∃ seat, service.GetSeatByID (pairs.get ⟨k, hk⟩).1.carriageID
              (pairs.get ⟨k, hk⟩).1.seatNumber = some seat ∧
            ts.get ⟨k, hk'⟩ =
              ⟨seat, o, d, service, (pairs.get ⟨k, hk⟩).2⟩ := by
  intro pairs
  induction pairs with
  | nil =>
    intro ts h
    simp only [processSeatRequests] at h
    cases h
    exact ⟨rfl, by intro k hk; simp at hk⟩
  | cons pr rest ih =>
    intro ts h
    obtain ⟨sr, p⟩ := pr
    simp only [processSeatRequests] at h
    cases hseat : service.GetSeatByID sr.carriageID sr.seatNumber with
    | none => rw [hseat] at h; cases h
    | some seat =>
      rw [hseat] at h
      cases hbook : rs.isSeatBooked sid sr.carriageID sr.seatNumber date with
      | true => rw [hbook] at h; simp at h
      | false =>
        rw [hbook] at h
        simp only [Bool.false_eq_true, if_false] at h
        cases hrec : processSeatRequests rs service sid o d date rest with
        | error e => rw [hrec] at h; cases h
        | ok ts' =>
          rw [hrec] at h
          cases h
          obtain ⟨hlen, hshape⟩ := ih ts' hrec
          refine ⟨by simp [hlen], ?_⟩
          intro k hk hk'
          cases k with
          | zero => exact ⟨seat, hseat, rfl⟩
          | succ k =>
            exact hshape k (by simpa using hk) (by simpa using hk')

theorem processSeatRequests_ok_of (rs : System) (service : Service) (sid : String)
    (o d : Station) (date : DateTime) :
    ∀ (pairs : List (SeatRequest × Passenger)),
      (∀ pr ∈ pairs,
        (service.GetSeatByID pr.1.carriageID pr.1.seatNumber).isSome = true ∧
        rs.isSeatBooked sid pr.1.carriageID pr.1.seatNumber date = false) →
      ∃ ts, processSeatRequests rs service sid o d date pairs = .ok ts := by
  intro pairs
  induction pairs with
  | nil => intro _; exact ⟨[], rfl⟩
  | cons pr rest ih =>
    intro h
    obtain ⟨sr, p⟩ := pr
    obtain ⟨hex, hnb⟩ := h _ (List.mem_cons_self _ _)
    obtain ⟨seat, hseat⟩ := Option.isSome_iff_exists.mp hex
    obtain ⟨ts, hts⟩ := ih (fun pr hpr => h pr (List.mem_cons_of_mem _ hpr))
    exact ⟨⟨seat, o, d, service, p⟩ :: ts,
      by simp [processSeatRequests, hseat, hnb, hts]⟩

theorem processSeatRequests_booked_error (rs : System) (service : Service) (sid : String)
    (o d : Station) (date : DateTime) :
    ∀ (pairs : List (SeatRequest × Passenger)),
      (∀ pr ∈ pairs,
        (service.GetSeatByID pr.1.carriageID pr.1.seatNumber).isSome = true) →
      (∃ pr ∈ pairs, rs.isSeatBooked sid pr.1.carriageID pr.1.seatNumber date = true) →
      ∃ e, processSeatRequests rs service sid o d date pairs = .error e ∧
        e.code = .seatAlreadyBooked := by
  intro pairs
  induction pairs with
  | nil => intro _ h; simp at h
  | cons pr rest ih =>
    intro hex hbook
    obtain ⟨sr, p⟩ := pr
    obtain ⟨seat, hseat⟩ :=
      Option.isSome_iff_exists.mp (hex _ (List.mem_cons_self _ _))
    cases hb : rs.isSeatBooked sid sr.carriageID sr.seatNumber date with
    | true =>
      exact ⟨⟨"Seat " ++ sr.seatNumber ++ " in carriage " ++ sr.carriageID ++
          " is already booked for service " ++ sid, .seatAlreadyBooked⟩,
        by simp [processSeatRequests, hseat, hb], rfl⟩
    | false =>
      have hrest : ∃ pr ∈ rest, rs.isSeatBooked sid pr.1.carriageID pr.1.seatNumber date = true := by
        obtain ⟨pr', hpr', hbpr'⟩ := hbook
        rcases List.mem_cons.mp hpr' with h | h
        · subst h; rw [hb] at hbpr'; cases hbpr'
        · exact ⟨pr', h, hbpr'⟩
      obtain ⟨e, he, hcode⟩ :=
        ih (fun pr hpr => hex pr (List.mem_cons_of_mem _ hpr)) hrest
      exact ⟨e, by simp [processSeatRequests, hseat, hb, he], hcode⟩

theorem processSeatRequests_code_eq (rs : System) (service : Service) (sid : String)
    (o d : Station) (date : DateTime) :
    ∀ (srs : List SeatRequest) (ps : List Passenger), srs.length = ps.length →
      resultCode (processSeatRequests rs service sid o d date (srs.zip ps)) =
        firstSeatFailure rs service sid date srs := by
  intro srs
  induction srs with
  | nil => intro ps _; simp [processSeatRequests, firstSeatFailure, resultCode]
  | cons sr rest ih =>
    intro ps hlen
    cases ps with
    | nil => simp at hlen
    | cons p ps' =>
      simp only [List.zip_cons_cons, processSeatRequests, firstSeatFailure]
      cases hseat : service.GetSeatByID sr.carriageID sr.seatNumber with
      | none => simp [resultCode]
      | some seat =>
        simp only [Option.isSome_some, Option.isNone_some, Bool.false_eq_true, if_false]
        cases hb : rs.isSeatBooked sid sr.carriageID sr.seatNumber date with
        | true => simp [resultCode]
        | false =>
          simp only [Bool.false_eq_true, if_false]
          have h' := ih ps' (by simpa using hlen)
          simp only [List.zip] at h'
          cases hrec : processSeatRequests rs service sid o d date
              (List.zipWith Prod.mk rest ps') with
          | error e => rw [hrec] at h'; simpa [resultCode] using h'
          | ok ts => rw [hrec] at h'; simpa [resultCode] using h'

theorem makeReservation_ok_of (rs : System) (req : ReservationRequest) (now : DateTime)
    (service : Service) (tickets : List Ticket)
    (hsvc : mapFind rs.services req.serviceID = some service)
    (hvalid : service.route.IsValidOriginDestination req.origin req.destination = true)
    (hlen : req.passengers.length = req.seatRequests.length)
    (hproc : processSeatRequests rs service req.serviceID
        ((service.route.GetStationByName req.origin).getD ⟨""⟩)
        ((service.route.GetStationByName req.destination).getD ⟨""⟩)
        req.date (req.seatRequests.zip req.passengers) = .ok tickets) :
    rs.MakeReservation req now =
      (.ok (NewBooking ("B" ++ pad4 rs.nextBookingID) req.passengers tickets now),
       { rs with
           bookings := mapInsert rs.bookings ("B" ++ pad4 rs.nextBookingID)
             (NewBooking ("B" ++ pad4 rs.nextBookingID) req.passengers tickets now),
           nextBookingID := rs.nextBookingID + 1 }) := by
  unfold System.MakeReservation
  rw [hsvc]
  simp [hvalid, hlen, hproc]

theorem makeReservation_ok_inv (rs : System) (req : ReservationRequest) (now : DateTime)
    (b : Booking) (sys' : System)
    (h : rs.MakeReservation req now = (.ok b, sys')) :
    ∃ service tickets,
      mapFind rs.services req.serviceID = some service ∧
      service.route.IsValidOriginDestination req.origin req.destination = true ∧
      req.passengers.length = req.seatRequests.length ∧
      processSeatRequests rs service req.serviceID
        ((service.route.GetStationByName req.origin).getD ⟨""⟩)
        ((service.route.GetStationByName req.destination).getD ⟨""⟩)
        req.date (req.seatRequests.zip req.passengers) = .ok tickets ∧
      b = NewBooking ("B" ++ pad4 rs.nextBookingID) req.passengers tickets now ∧
      sys' = { rs with
                 bookings := mapInsert rs.bookings ("B" ++ pad4 rs.nextBookingID) b,
                 nextBookingID := rs.nextBookingID + 1 } := by
  unfold System.MakeReservation at h
  cases hsvc : mapFind rs.services req.serviceID with
  | none => simp only [hsvc] at h; simp at h
  | some service =>
    simp only [hsvc] at h
    cases hvalid : service.route.IsValidOriginDestination req.origin req.destination with
    | false => simp only [hvalid] at h; simp at h
    | true =>
      simp only [hvalid, Bool.not_true, Bool.false_eq_true, if_false] at h
      by_cases hlen : req.passengers.length = req.seatRequests.length
      · simp only [hlen, ne_eq, not_true_eq_false, if_false] at h
        cases hproc : processSeatRequests rs service req.serviceID
            ((service.route.GetStationByName req.origin).getD ⟨""⟩)
            ((service.route.GetStationByName req.destination).getD ⟨""⟩)
            req.date (req.seatRequests.zip req.passengers) with
        | error e => simp only [hproc] at h; simp at h
        | ok tickets =>
          simp only [hproc, Prod.mk.injEq, Except.ok.injEq] at h
          obtain ⟨hb, hsys⟩ := h
          exact ⟨service, tickets, rfl, hvalid, hlen, hproc, hb.symm, by rw [hsys.symm, hb]⟩
      · simp only [hlen, ne_eq, not_false_eq_true, if_true] at h
        simp at h

theorem makeReservation_error_frame (rs : System) (req : ReservationRequest)
    (now : DateTime) (e : ReservationError)
    (h : (rs.MakeReservation req now).1 = .error e) :
    rs.MakeReservation req now = (.error e, rs) := by
  unfold System.MakeReservation at h ⊢
  cases hsvc : mapFind rs.services req.serviceID with
  | none => simp only [hsvc] at h ⊢; simp_all
  | some service =>
    simp only [hsvc] at h ⊢
    cases hvalid : service.route.IsValidOriginDestination req.origin req.destination with
    | false => simp only [hvalid] at h ⊢; simp_all
    | true =>
      simp only [hvalid, Bool.not_true, Bool.false_eq_true, if_false] at h ⊢
      by_cases hlen : req.passengers.length = req.seatRequests.length
      · simp only [hlen, ne_eq, not_true_eq_false, if_false] at h ⊢
        cases hproc : processSeatRequests rs service req.serviceID
            ((service.route.GetStationByName req.origin).getD ⟨""⟩)
            ((service.route.GetStationByName req.destination).getD ⟨""⟩)
            req.date (req.seatRequests.zip req.passengers) with
        | error e' => simp only [hproc] at h ⊢; simp_all
        | ok tickets => simp only [hproc] at h ⊢; simp_all
      · simp only [hlen, ne_eq, not_false_eq_true, if_true] at h ⊢
        simp_all

theorem getStopIndexFrom_snd_eq (name : String) :
    ∀ (stops : List Stop) (i : Int),
      (getStopIndexFrom i name stops).2 =
        (stops.find? (fun s => s.station.name == name)).isSome := by
  intro stops
  induction stops with
  | nil => intro i; rfl
  | cons stop rest ih =>
    intro i
    by_cases h : stop.station.name = name
    · simp [getStopIndexFrom, List.find?_cons_of_pos, h]
    · simp only [getStopIndexFrom, beq_iff_eq, h, if_false]
      rw [List.find?_cons_of_neg _ (by simpa using h)]
      exact ih (i + 1)

theorem getStationByName_isSome_of_found (r : Route) (name : String)
    (h : (r.GetStopIndex name).2 = true) :
    ∃ st, r.GetStationByName name = some st := by
  rw [Route.GetStopIndex, getStopIndexFrom_snd_eq] at h
  obtain ⟨stop, hstop⟩ := Option.isSome_iff_exists.mp h
  exact ⟨stop.station, by simp [Route.GetStationByName, hstop]⟩

theorem isValidOriginDestination_iff (r : Route) (origin destination : String) :
    r.IsValidOriginDestination origin destination = true ↔
      ((r.GetStopIndex origin).2 = true ∧ (r.GetStopIndex destination).2 = true ∧
       (r.GetStopIndex origin).1 < (r.GetStopIndex destination).1) := by
  unfold Route.IsValidOriginDestination
  cases ho : (r.GetStopIndex origin).2 <;> cases hd : (r.GetStopIndex destination).2 <;>
    simp [ho, hd]

theorem collectPassengers_eq (f : Ticket → Bool) (bs : List (String × Booking)) :
    collectPassengers f bs =
      (((bs.map (fun kb => kb.2.tickets)).flatten).filter f).map (·.passenger) := by
  induction bs with
  | nil => rfl
  | cons kb rest ih =>
    simp [collectPassengers, List.filter_append, ih]

theorem mem_collectPassengers (f : Ticket → Bool) (bs : List (String × Booking))
    (p : Passenger) :
    p ∈ collectPassengers f bs ↔
      ∃ kb ∈ bs, ∃ t ∈ kb.2.tickets, f t = true ∧ t.passenger = p := by
  induction bs with
  | nil => simp [collectPassengers]
  | cons kb rest ih =>
    simp only [collectPassengers, List.mem_append, List.mem_map, List.mem_filter, ih,
      List.mem_cons]
    constructor
    · rintro (⟨t, ⟨ht, hf⟩, hp⟩ | ⟨kb', hkb', t, ht, hf, hp⟩)
      · exact ⟨kb, Or.inl rfl, t, ht, hf, hp⟩
      · exact ⟨kb', Or.inr hkb', t, ht, hf, hp⟩
    · rintro ⟨kb', hkb' | hkb', t, ht, hf, hp⟩
      · subst hkb'; exact Or.inl ⟨t, ⟨ht, hf⟩, hp⟩
      · exact Or.inr ⟨kb', hkb', t, ht, hf, hp⟩

theorem makeReservation_invalidRoute (rs : System) (req : ReservationRequest)
    (now : DateTime) (service : Service)
    (hsvc : mapFind rs.services req.serviceID = some service)
    (hvalid : service.route.IsValidOriginDestination req.origin req.destination = false) :
    ∃ e, rs.MakeReservation req now = (.error e, rs) ∧ e.code = .invalidRoute := by
  refine ⟨⟨"Invalid route from " ++ req.origin ++ " to " ++ req.destination ++
      " for service " ++ req.serviceID, .invalidRoute⟩, ?_, rfl⟩
  unfold System.MakeReservation
  simp [hsvc, hvalid]

theorem mkStops_length : ∀ (i : Nat) (stations : List Station) (distances : List Int),
    stations.length = distances.length →
    (mkStops i stations distances).length = stations.length := by
  intro i stations
  induction stations generalizing i with
  | nil => intro distances _; rfl
  | cons s ss ih =>
    intro distances hlen
    cases distances with
    | nil => simp at hlen
    | cons d ds => simp [mkStops, ih (i + 1) ds (by simpa using hlen)]

theorem mkStops_get : ∀ (i : Nat) (stations : List Station) (distances : List Int)
    (k : Nat) (hks : k < stations.length) (hkd : k < distances.length)
    (hkm : k < (mkStops i stations distances).length),
    (mkStops i stations distances).get ⟨k, hkm⟩ =
      ⟨stations.get ⟨k, hks⟩, distances.get ⟨k, hkd⟩, i + k⟩ := by
  intro i stations
  induction stations generalizing i with
  | nil => intro distances k hks; simp at hks
  | cons s ss ih =>
    intro distances k hks hkd hkm
    cases distances with
    | nil => simp at hkd
    | cons d ds =>
      cases k with
      | zero => simp [mkStops]
      | succ k =>
        have := ih (i + 1) ds k (by simpa using hks) (by simpa using hkd)
          (by simpa [mkStops] using hkm)
        simp only [mkStops, List.get_cons_succ, this]
        congr 1
        omega

/-- Claim C10: route construction with station and distance lists of unequal
length is a fatal error (the Go `panic`, modelled as `none`); with
equal-length inputs it never fails and yields a route whose stop at
position `i` carries station `i`, distance `i`, and ordinal position `i`. -/
theorem C10_route_construction (id name : String) (stations : List Station)
    (distances : List Int) :
    (stations.length ≠ distances.length → NewRoute id name stations distances = none) ∧
    (stations.length = distances.length →
      ∃ r, NewRoute id name stations distances = some r ∧
        r.id = id ∧ r.name = name ∧ r.stops.length = stations.length ∧
        ∀ k (hks : k < stations.length) (hkd : k < distances.length)
          (hkr : k < r.stops.length),
          r.stops.get ⟨k, hkr⟩ = ⟨stations.get ⟨k, hks⟩, distances.get ⟨k, hkd⟩, k⟩) := by
  constructor
  · intro hne; simp [NewRoute, hne]
  · intro heq
    refine ⟨{ id := id, name := name, stops := mkStops 0 stations distances },
      by simp [NewRoute, heq], rfl, rfl, mkStops_length 0 stations distances heq, ?_⟩
    intro k hks hkd hkr
    simpa using mkStops_get 0 stations distances k hks hkd hkr

theorem C10_witness :
    (NewRoute "R001" "T" [NewStation "A", NewStation "B"] [0] = none) ∧
    (∃ r, NewRoute "R001" "T" [NewStation "A", NewStation "B"] [0, 100] = some r ∧
      r.id = "R001" ∧ r.name = "T" ∧
      r.stops.length = [NewStation "A", NewStation "B"].length ∧
      ∀ k (hks : k < [NewStation "A", NewStation "B"].length)
        (hkd : k < [(0 : Int), 100].length) (hkr : k < r.stops.length),
        r.stops.get ⟨k, hkr⟩ =
          ⟨[NewStation "A", NewStation "B"].get ⟨k, hks⟩,
           [(0 : Int), 100].get ⟨k, hkd⟩, k⟩) :=
  ⟨(C10_route_construction "R001" "T" [NewStation "A", NewStation "B"] [0]).1
      (by decide),
   (C10_route_construction "R001" "T" [NewStation "A", NewStation "B"] [0, 100]).2
      (by decide)⟩

/-- Claim C7: `IsValidOriginDestination` returns `true` exactly when both
names resolve to stops on the route and the origin's stop index is strictly
below the destination's; consequently `MakeReservation` on a request whose
origin does not precede its destination on the registered service's route
(equal, reversed, or a name absent) fails with `InvalidRoute` and leaves
the engine state unchanged. -/
theorem C7_route_order_invariant :
    (∀ (r : Route) (origin destination : String),
      r.IsValidOriginDestination origin destination = true ↔
        ((r.GetStopIndex origin).2 = true ∧ (r.GetStopIndex destination).2 = true ∧
         (r.GetStopIndex origin).1 < (r.GetStopIndex destination).1)) ∧
    (∀ (rs : System) (req : ReservationRequest) (now : DateTime) (service : Service),
      mapFind rs.services req.serviceID = some service →
      ¬((service.route.GetStopIndex req.origin).2 = true ∧
        (service.route.GetStopIndex req.destination).2 = true ∧
        (service.route.GetStopIndex req.origin).1 <
          (service.route.GetStopIndex req.destination).1) →
      ∃ e, rs.MakeReservation req now = (.error e, rs) ∧ e.code = .invalidRoute) := by
  refine ⟨isValidOriginDestination_iff, ?_⟩
  intro rs req now service hsvc hbad
  have hvalid : service.route.IsValidOriginDestination req.origin req.destination = false := by
    cases hv : service.route.IsValidOriginDestination req.origin req.destination with
    | false => rfl
    | true => exact absurd ((isValidOriginDestination_iff _ _ _).mp hv) hbad
  exact makeReservation_invalidRoute rs req now service hsvc hvalid

theorem C7_witness :
    mapFind sys5160.services "5160" = some svc5160 ∧
    ∃ e, sys5160.MakeReservation
        ⟨"5160", "Amsterdam", "Paris", [⟨"Alice Brown"⟩], [⟨"A", "A2"⟩], dApr1⟩ dApr1 =
        (.error e, sys5160) ∧ e.code = .invalidRoute :=
  ⟨by decide,
   C7_route_order_invariant.2 sys5160
     ⟨"5160", "Amsterdam", "Paris", [⟨"Alice Brown"⟩], [⟨"A", "A2"⟩], dApr1⟩
     dApr1 svc5160 (by decide) (by decide)⟩

/-- Claim C5: whenever `MakeReservation` returns an error, the engine state
is unchanged — same booking store (hence same contents and size, and no
ticket from the request anywhere) and an unadvanced booking-id counter. -/
theorem C5_all_or_nothing (rs : System) (req : ReservationRequest) (now : DateTime)
    (e : ReservationError) (h : (rs.MakeReservation req now).1 = .error e) :
    (rs.MakeReservation req now).2 = rs ∧
    ((rs.MakeReservation req now).2).bookings = rs.bookings ∧
    ((rs.MakeReservation req now).2).nextBookingID = rs.nextBookingID := by
  rw [makeReservation_error_frame rs req now e h]
  exact ⟨rfl, rfl, rfl⟩

theorem C5_witness :
    ((sys5160.MakeReservation
        ⟨"5160", "Paris", "Amsterdam", [⟨"D"⟩, ⟨"E"⟩], [⟨"A", "A2"⟩], dApr1⟩ dApr1).1 =
      .error ⟨"Number of passengers must match number of seat requests",
        .passengerSeatMismatch⟩) ∧
    (sys5160.MakeReservation
        ⟨"5160", "Paris", "Amsterdam", [⟨"D"⟩, ⟨"E"⟩], [⟨"A", "A2"⟩], dApr1⟩ dApr1).2 =
      sys5160 :=
  ⟨by rfl,
   (C5_all_or_nothing sys5160
      ⟨"5160", "Paris", "Amsterdam", [⟨"D"⟩, ⟨"E"⟩], [⟨"A", "A2"⟩], dApr1⟩ dApr1
      ⟨"Number of passengers must match number of seat requests",
        .passengerSeatMismatch⟩ (by rfl)).1⟩

/-- Claim C4: the outcome of `MakeReservation` is exactly the spec's first
failing check — service existence, then route validity, then passenger/seat
count, then the per-seat exists/not-booked checks in list order — and
success exactly when no check fails. -/
theorem C4_validation_order (rs : System) (req : ReservationRequest) (now : DateTime) :
    resultCode (rs.MakeReservation req now).1 = firstFailingCheck rs req := by
  unfold System.MakeReservation firstFailingCheck
  cases hsvc : mapFind rs.services req.serviceID with
  | none => simp [resultCode]
  | some service =>
    cases hvalid : service.route.IsValidOriginDestination req.origin req.destination with
    | false => simp [hvalid, resultCode]
    | true =>
      simp only [hvalid, Bool.not_true, Bool.false_eq_true, if_false]
      by_cases hlen : req.passengers.length = req.seatRequests.length
      · simp only [hlen, ne_eq, not_true_eq_false, if_false]
        have := processSeatRequests_code_eq rs service req.serviceID
          ((service.route.GetStationByName req.origin).getD ⟨""⟩)
          ((service.route.GetStationByName req.destination).getD ⟨""⟩)
          req.date req.seatRequests req.passengers hlen.symm
        cases hproc : processSeatRequests rs service req.serviceID
            ((service.route.GetStationByName req.origin).getD ⟨""⟩)
            ((service.route.GetStationByName req.destination).getD ⟨""⟩)
            req.date (req.seatRequests.zip req.passengers) with
        | error e => rw [hproc] at this; simpa [resultCode] using this
        | ok ts => rw [hproc] at this; simpa [resultCode] using this
      · simp [hlen, resultCode]

/-- Claim C1: if the store holds a booked ticket for the request's service
id, a carriage/seat pair named by the request, and the request's calendar
date, then an otherwise-valid `MakeReservation` request fails with
`SeatAlreadyBooked`, creating no ticket and storing nothing — the state is
returned unchanged. -/
theorem C1_double_booking_exclusion (rs : System) (req : ReservationRequest)
    (now : DateTime) (service : Service) (cid sn : String)
    (hsvc : mapFind rs.services req.serviceID = some service)
    (hvalid : service.route.IsValidOriginDestination req.origin req.destination = true)
    (hlen : req.passengers.length = req.seatRequests.length)
    (hseats : ∀ sr ∈ req.seatRequests,
      (service.GetSeatByID sr.carriageID sr.seatNumber).isSome = true)
    (hnames : (⟨cid, sn⟩ : SeatRequest) ∈ req.seatRequests)
    (hbooked : ∃ kb ∈ rs.bookings, ∃ t ∈ kb.2.tickets,
      t.service.id = req.serviceID ∧ t.seat.carriageID = cid ∧ t.seat.number = sn ∧
      isSameDate t.service.dateTime req.date = true) :
    ∃ e, rs.MakeReservation req now = (.error e, rs) ∧ e.code = .seatAlreadyBooked := by
  have hbooked' : rs.isSeatBooked req.serviceID cid sn req.date = true :=
    (isSeatBooked_iff rs req.serviceID cid sn req.date).mpr hbooked
  obtain ⟨p, hpr⟩ := exists_mem_zip_of_mem hnames hlen.symm
  obtain ⟨e, herr, hcode⟩ := processSeatRequests_booked_error rs service req.serviceID
    ((service.route.GetStationByName req.origin).getD ⟨""⟩)
    ((service.route.GetStationByName req.destination).getD ⟨""⟩)
    req.date (req.seatRequests.zip req.passengers)
    (fun pr hpr' => hseats pr.1 (fst_mem_of_mem_zip hpr'))
    ⟨(⟨cid, sn⟩, p), hpr, hbooked'⟩
  refine ⟨e, ?_, hcode⟩
  unfold System.MakeReservation
  simp [hsvc, hvalid, hlen, herr]

theorem C1_witness :
    (∃ kb ∈ sysBooked.bookings, ∃ t ∈ kb.2.tickets,
      t.service.id = "5160" ∧ t.seat.carriageID = "A" ∧ t.seat.number = "A1" ∧
      isSameDate t.service.dateTime dApr1 = true) ∧
    ∃ e, sysBooked.MakeReservation
        ⟨"5160", "Paris", "Amsterdam", [⟨"Jane Smith"⟩], [⟨"A", "A1"⟩], dApr1⟩ dApr1 =
        (.error e, sysBooked) ∧ e.code = .seatAlreadyBooked :=
  ⟨by decide,
   C1_double_booking_exclusion sysBooked
     ⟨"5160", "Paris", "Amsterdam", [⟨"Jane Smith"⟩], [⟨"A", "A1"⟩], dApr1⟩
     dApr1 svc5160 "A" "A1" (by decide) (by decide) (by decide)
     (by decide) (by decide) (by decide)⟩

/-- Claim C3: a stored ticket blocks a later request for its seat exactly
when the later request's date falls on the same calendar day as the
ticket's service's operating `DateTime` (a ticket stores no travel date of
its own), so an otherwise-valid request whose date shares no calendar day
with any stored ticket of the service succeeds even when the identical
seat was already booked under that same off-schedule date. -/
theorem C3_date_comparison_semantics (rs : System) (req : ReservationRequest)
    (now : DateTime) (service : Service) (cid sn : String) :
    (rs.isSeatBooked req.serviceID cid sn req.date = true ↔
      ∃ kb ∈ rs.bookings, ∃ t ∈ kb.2.tickets,
        t.service.id = req.serviceID ∧ t.seat.carriageID = cid ∧ t.seat.number = sn ∧
        isSameDate t.service.dateTime req.date = true) ∧
    (mapFind rs.services req.serviceID = some service →
     service.route.IsValidOriginDestination req.origin req.destination = true →
     req.passengers.length = req.seatRequests.length →
     (∀ sr ∈ req.seatRequests,
       (service.GetSeatByID sr.carriageID sr.seatNumber).isSome = true) →
     (∀ kb ∈ rs.bookings, ∀ t ∈ kb.2.tickets,
       t.service.id = req.serviceID → isSameDate t.service.dateTime req.date = false) →
     ∃ b sys', rs.MakeReservation req now = (.ok b, sys')) := by
  refine ⟨isSeatBooked_iff rs req.serviceID cid sn req.date, ?_⟩
  intro hsvc hvalid hlen hseats hdiff
  have hnb : ∀ sr ∈ req.seatRequests,
      rs.isSeatBooked req.serviceID sr.carriageID sr.seatNumber req.date = false := by
    intro sr _
    cases hb : rs.isSeatBooked req.serviceID sr.carriageID sr.seatNumber req.date with
    | false => rfl
    | true =>
      obtain ⟨kb, hkb, t, ht, hid, _, _, hsame⟩ :=
        (isSeatBooked_iff rs req.serviceID sr.carriageID sr.seatNumber req.date).mp hb
      rw [hdiff kb hkb t ht hid] at hsame
      cases hsame
  obtain ⟨ts, hok⟩ := processSeatRequests_ok_of rs service req.serviceID
    ((service.route.GetStationByName req.origin).getD ⟨""⟩)
    ((service.route.GetStationByName req.destination).getD ⟨""⟩)
    req.date (req.seatRequests.zip req.passengers)
    (fun pr hpr => ⟨hseats pr.1 (fst_mem_of_mem_zip hpr),
      hnb pr.1 (fst_mem_of_mem_zip hpr)⟩)
  exact ⟨_, _, makeReservation_ok_of rs req now service ts hsvc hvalid hlen hok⟩

theorem C3_witness :
    (∃ kb ∈ sysOff.bookings, ∃ t ∈ kb.2.tickets,
      t.service.id = "5160" ∧ t.seat.carriageID = "A" ∧ t.seat.number = "A1") ∧
    (∀ kb ∈ sysOff.bookings, ∀ t ∈ kb.2.tickets, t.service.id = "5160" →
      isSameDate t.service.dateTime dApr2 = false) ∧
    ∃ b sys', sysOff.MakeReservation
        ⟨"5160", "Paris", "Amsterdam", [⟨"Y"⟩], [⟨"A", "A1"⟩], dApr2⟩ dApr2 =
        (.ok b, sys') :=
  ⟨by decide, by decide,
   (C3_date_comparison_semantics sysOff
      ⟨"5160", "Paris", "Amsterdam", [⟨"Y"⟩], [⟨"A", "A1"⟩], dApr2⟩
      dApr2 svc5160 "A" "A1").2
     (by decide) (by decide) (by decide) (by decide) (by decide)⟩

theorem zip_get {α β : Type} : ∀ (l1 : List α) (l2 : List β) (k : Nat)
    (h : k < (l1.zip l2).length) (h1 : k < l1.length) (h2 : k < l2.length),
    (l1.zip l2).get ⟨k, h⟩ = (l1.get ⟨k, h1⟩, l2.get ⟨k, h2⟩) := by
  intro l1
  induction l1 with
  | nil => intro l2 k h h1; simp at h1
  | cons a l1 ih =>
    intro l2 k h h1 h2
    cases l2 with
    | nil => simp at h2
    | cons b l2 =>
      cases k with
      | zero => rfl
      | succ k =>
        exact ih l2 k (by simpa using h) (by simpa using h1) (by simpa using h2)

/-- Claim C6: the availability check consults only stored bookings, never
tickets built earlier in the same request, so a request listing the same
(carriage, seat) pair at two distinct positions — otherwise valid and with
no stored conflict — succeeds and returns one booking holding two tickets
for the same seat of the same service. -/
theorem C6_intra_request_double_booking (rs : System) (req : ReservationRequest)
    (now : DateTime) (service : Service) (i j : Nat)
    (hsvc : mapFind rs.services req.serviceID = some service)
    (hvalid : service.route.IsValidOriginDestination req.origin req.destination = true)
    (hlen : req.passengers.length = req.seatRequests.length)
    (hi : i < req.seatRequests.length) (hj : j < req.seatRequests.length)
    (hij : i ≠ j)
    (hdup : req.seatRequests.get ⟨i, hi⟩ = req.seatRequests.get ⟨j, hj⟩)
    (hseats : ∀ sr ∈ req.seatRequests,
      (service.GetSeatByID sr.carriageID sr.seatNumber).isSome = true)
    (hnb : ∀ sr ∈ req.seatRequests,
      rs.isSeatBooked req.serviceID sr.carriageID sr.seatNumber req.date = false) :
    ∃ b sys', rs.MakeReservation req now = (.ok b, sys') ∧
      b.tickets.length = req.seatRequests.length ∧
      ∃ (hbi : i < b.tickets.length) (hbj : j < b.tickets.length),
        (b.tickets.get ⟨i, hbi⟩).seat = (b.tickets.get ⟨j, hbj⟩).seat ∧
        (b.tickets.get ⟨i, hbi⟩).service = (b.tickets.get ⟨j, hbj⟩).service := by
  obtain ⟨ts, hok⟩ := processSeatRequests_ok_of rs service req.serviceID
    ((service.route.GetStationByName req.origin).getD ⟨""⟩)
    ((service.route.GetStationByName req.destination).getD ⟨""⟩)
    req.date (req.seatRequests.zip req.passengers)
    (fun pr hpr => ⟨hseats pr.1 (fst_mem_of_mem_zip hpr),
      hnb pr.1 (fst_mem_of_mem_zip hpr)⟩)
  have hzlen : (req.seatRequests.zip req.passengers).length = req.seatRequests.length := by
    rw [List.length_zip]; omega
  obtain ⟨htslen, hshape⟩ := processSeatRequests_ok_shape rs service req.serviceID
    ((service.route.GetStationByName req.origin).getD ⟨""⟩)
    ((service.route.GetStationByName req.destination).getD ⟨""⟩)
    req.date (req.seatRequests.zip req.passengers) ts hok
  have htslen' : ts.length = req.seatRequests.length := by rw [htslen, hzlen]
  refine ⟨NewBooking ("B" ++ pad4 rs.nextBookingID) req.passengers ts now, _,
    makeReservation_ok_of rs req now service ts hsvc hvalid hlen hok, htslen', ?_⟩
  refine ⟨by simpa [NewBooking] using htslen' ▸ hi, by simpa [NewBooking] using htslen' ▸ hj, ?_⟩
  have hip : i < req.passengers.length := by omega
  have hjp : j < req.passengers.length := by omega
  have hiz : i < (req.seatRequests.zip req.passengers).length := by omega
  have hjz : j < (req.seatRequests.zip req.passengers).length := by omega
  have hit : i < ts.length := by omega
  have hjt : j < ts.length := by omega
  obtain ⟨seati, hseati, hti⟩ := hshape i hiz hit
  obtain ⟨seatj, hseatj, htj⟩ := hshape j hjz hjt
  rw [zip_get req.seatRequests req.passengers i hiz hi hip] at hseati hti
  rw [zip_get req.seatRequests req.passengers j hjz hj hjp] at hseatj htj
  have hseq : seati = seatj := by
    rw [hdup] at hseati
    rw [hseati] at hseatj
    exact Option.some_inj.mp hseatj
  show (ts.get ⟨i, _⟩).seat = (ts.get ⟨j, _⟩).seat ∧
    (ts.get ⟨i, _⟩).service = (ts.get ⟨j, _⟩).service
  rw [hti, htj, hseq]
  exact ⟨rfl, rfl⟩

theorem C6_witness :
    ∃ b sys', sys5160.MakeReservation
        ⟨"5160", "Paris", "Amsterdam", [⟨"P1"⟩, ⟨"P2"⟩],
          [⟨"A", "A2"⟩, ⟨"A", "A2"⟩], dApr1⟩ dApr1 = (.ok b, sys') ∧
      b.tickets.length = 2 ∧
      ∃ (hbi : 0 < b.tickets.length) (hbj : 1 < b.tickets.length),
        (b.tickets.get ⟨0, hbi⟩).seat = (b.tickets.get ⟨1, hbj⟩).seat ∧
        (b.tickets.get ⟨0, hbi⟩).service = (b.tickets.get ⟨1, hbj⟩).service :=
  C6_intra_request_double_booking sys5160
    ⟨"5160", "Paris", "Amsterdam", [⟨"P1"⟩, ⟨"P2"⟩],
      [⟨"A", "A2"⟩, ⟨"A", "A2"⟩], dApr1⟩
    dApr1 svc5160 0 1 (by decide) (by decide) (by decide) (by decide) (by decide)
    (by decide) (by decide) (by decide) (by decide)

/-- Claim C9: a fully validated request yields a booking whose id is the
letter prefix `B` followed by the zero-padded sequential counter (the
counter starts at 1, so the first booking is `B0001`), stored under that
id with the counter advanced; the booking carries exactly the request's
passengers and one ticket per passenger, ticket `k` binding the seat
resolved from seat-request `k`, the resolved origin and destination
stations, the service, and passenger `k`. -/
theorem C9_success_postcondition (rs : System) (req : ReservationRequest)
    (now : DateTime) (b : Booking)
    (h : (rs.MakeReservation req now).1 = .ok b) :
    NewSystem.nextBookingID = 1 ∧
    b.id = "B" ++ pad4 rs.nextBookingID ∧
    (rs.nextBookingID = 1 → b.id = "B0001") ∧
    b.passengers = req.passengers ∧
    b.tickets.length = req.passengers.length ∧
    mapFind ((rs.MakeReservation req now).2).bookings b.id = some b ∧
    ((rs.MakeReservation req now).2).nextBookingID = rs.nextBookingID + 1 ∧
    ∃ service originStation destStation,
      mapFind rs.services req.serviceID = some service ∧
      service.route.GetStationByName req.origin = some originStation ∧
      service.route.GetStationByName req.destination = some destStation ∧
      ∀ k (hks : k < req.seatRequests.length) (hkp : k < req.passengers.length)
        (hkt : k < b.tickets.length),
        ∃ seat, service.GetSeatByID (req.seatRequests.get ⟨k, hks⟩).carriageID
            (req.seatRequests.get ⟨k, hks⟩).seatNumber = some seat ∧
          b.tickets.get ⟨k, hkt⟩ =
            ⟨seat, originStation, destStation, service, req.passengers.get ⟨k, hkp⟩⟩ := by
  have hpair : rs.MakeReservation req now = (.ok b, (rs.MakeReservation req now).2) := by
    rw [← h]
  obtain ⟨service, ts, hsvc, hvalid, hlen, hproc, hb, hsys⟩ :=
    makeReservation_ok_inv rs req now b _ hpair
  obtain ⟨hfo, hfd, _⟩ := (isValidOriginDestination_iff _ _ _).mp hvalid
  obtain ⟨ost, host⟩ := getStationByName_isSome_of_found _ _ hfo
  obtain ⟨dst, hdst⟩ := getStationByName_isSome_of_found _ _ hfd
  obtain ⟨htslen, hshape⟩ := processSeatRequests_ok_shape rs service req.serviceID
    ((service.route.GetStationByName req.origin).getD ⟨""⟩)
    ((service.route.GetStationByName req.destination).getD ⟨""⟩)
    req.date (req.seatRequests.zip req.passengers) ts hproc
  have hzlen : (req.seatRequests.zip req.passengers).length = req.seatRequests.length := by
    rw [List.length_zip]; omega
  have hbt : b.tickets = ts := by rw [hb]; rfl
  have hbtlen : b.tickets.length = req.passengers.length := by
    rw [hbt, htslen, hzlen, hlen]
  refine ⟨rfl, by rw [hb]; rfl, ?_, by rw [hb]; rfl, hbtlen, ?_, by rw [hsys], ?_⟩
  · intro h1; rw [hb, h1]; rfl
  · rw [hsys]
    show mapFind (mapInsert rs.bookings ("B" ++ pad4 rs.nextBookingID) b) b.id = some b
    have : b.id = "B" ++ pad4 rs.nextBookingID := by rw [hb]; rfl
    rw [this]
    exact mapFind_mapInsert_self rs.bookings _ b
  · refine ⟨service, ost, dst, hsvc, host, hdst, ?_⟩
    intro k hks hkp hkt
    have hkz : k < (req.seatRequests.zip req.passengers).length := by omega
    have hkt' : k < ts.length := by rw [htslen]; omega
    obtain ⟨seat, hseat, hticket⟩ := hshape k hkz hkt'
    rw [zip_get req.seatRequests req.passengers k hkz hks hkp] at hseat hticket
    refine ⟨seat, hseat, ?_⟩
    have hget : b.tickets.get ⟨k, hkt⟩ = ts.get ⟨k, hkt'⟩ := by
      cases hbt
      rfl
    rw [hget, hticket, host, hdst]
    rfl

theorem C9_witness :
    ((sysABC.MakeReservation reqW dC2).1 = .ok bW) ∧
    bW.id = "B0001" ∧ bW.passengers = [⟨"W"⟩] ∧ bW.tickets.length = 1 ∧
    mapFind ((sysABC.MakeReservation reqW dC2).2).bookings "B0001" = some bW := by
  have h : (sysABC.MakeReservation reqW dC2).1 = .ok bW := by rfl
  obtain ⟨_, _, hfirst, hpass, htlen, hstore, _, _⟩ :=
    C9_success_postcondition sysABC reqW dC2 bW h
  have hid : bW.id = "B0001" := hfirst rfl
  refine ⟨h, hid, ?_, ?_, ?_⟩
  · rw [hpass]; rfl
  · rw [htlen]; rfl
  · rw [← hid]; exact hstore

/-- Claim C8: `GetPassengersBetweenStations` returns the empty list (never
an error) when the service id is unregistered or either station name is
absent from the route; otherwise, with the two stop indices normalized so
the lower is the segment start, it returns exactly the passengers of
tickets matching the service id and date whose origin stop index is at
most the segment start and whose destination stop index is at least the
segment end. -/
theorem C8_between_stations_semantics (rs : System) (serviceID station1 station2 : String)
    (date : DateTime) :
    rs.GetPassengersBetweenStations serviceID station1 station2 date =
      betweenStationsSpec rs serviceID station1 station2 date := by
  unfold System.GetPassengersBetweenStations betweenStationsSpec
  cases hsvc : mapFind rs.services serviceID with
  | none => rfl
  | some service =>
    cases f1 : (service.route.GetStopIndex station1).2 with
    | false => simp [f1]
    | true =>
      cases f2 : (service.route.GetStopIndex station2).2 with
      | false => simp [f1, f2]
      | true =>
        simp only [f1, f2, Bool.not_true, Bool.or_self, Bool.false_eq_true, if_false,
          Bool.and_self, if_true]
        have hlo : (if (service.route.GetStopIndex station1).1 ≥
              (service.route.GetStopIndex station2).1 then
              (service.route.GetStopIndex station2).1
            else (service.route.GetStopIndex station1).1) =
            min (service.route.GetStopIndex station1).1
              (service.route.GetStopIndex station2).1 := by
          split <;> omega
        have hhi : (if (service.route.GetStopIndex station1).1 ≥
              (service.route.GetStopIndex station2).1 then
              (service.route.GetStopIndex station1).1
            else (service.route.GetStopIndex station2).1) =
            max (service.route.GetStopIndex station1).1
              (service.route.GetStopIndex station2).1 := by
          split <;> omega
        rw [hlo, hhi, collectPassengers_eq]
        rfl

/-- Claim C2 as stated is false on the code: full-coverage semantics makes
the wider segment the stricter filter. On `sysC2`, passenger P holds a
B → C ticket; the interval [B,C] is contained in [A,C], yet P appears in
the [B,C] result and not in the [A,C] result, so the [A,C] result is not
a superset of the [B,C] result. -/
theorem C2_counterexample :
    (⟨"P"⟩ : Passenger) ∈ sysC2.GetPassengersBetweenStations "S" "B" "C" dC2 ∧
    (⟨"P"⟩ : Passenger) ∉ sysC2.GetPassengersBetweenStations "S" "A" "C" dC2 := by
  decide

/-- Claim C2 (amended): with the containment direction corrected — for
station pairs resolving on the registered service's route, whenever the
normalized index interval of (A', B') contains that of (A, B), the
passenger list for segment (A, B) is a SUBSET of the list for (A', B'):
a ticket covering a wider segment covers every subsegment. -/
theorem C2_amended_monotonicity (rs : System) (sid A B A' B' : String)
    (date : DateTime) (service : Service)
    (hsvc : mapFind rs.services sid = some service)
    (hfA : (service.route.GetStopIndex A).2 = true)
    (hfB : (service.route.GetStopIndex B).2 = true)
    (hfA' : (service.route.GetStopIndex A').2 = true)
    (hfB' : (service.route.GetStopIndex B').2 = true)
    (hlo : min (service.route.GetStopIndex A).1 (service.route.GetStopIndex B).1 ≤
           min (service.route.GetStopIndex A').1 (service.route.GetStopIndex B').1)
    (hhi : max (service.route.GetStopIndex A').1 (service.route.GetStopIndex B').1 ≤
           max (service.route.GetStopIndex A).1 (service.route.GetStopIndex B).1) :
    ∀ p ∈ rs.GetPassengersBetweenStations sid A B date,
      p ∈ rs.GetPassengersBetweenStations sid A' B' date := by
  intro p hp
  unfold System.GetPassengersBetweenStations at hp ⊢
  simp only [hsvc, hfA, hfB, hfA', hfB', Bool.not_true, Bool.or_self, Bool.false_eq_true,
    if_false] at hp ⊢
  rw [mem_collectPassengers] at hp ⊢
  obtain ⟨kb, hkb, t, ht, hf, hpt⟩ := hp
  refine ⟨kb, hkb, t, ht, ?_, hpt⟩
  simp only [Bool.and_eq_true, decide_eq_true_eq] at hf ⊢
  obtain ⟨⟨⟨hsid, hdate⟩, horig⟩, hdest⟩ := hf
  refine ⟨⟨⟨hsid, hdate⟩, ?_⟩, ?_⟩
  · have h1 : (if (service.route.GetStopIndex A).1 ≥ (service.route.GetStopIndex B).1 then
        (service.route.GetStopIndex B).1 else (service.route.GetStopIndex A).1) =
        min (service.route.GetStopIndex A).1 (service.route.GetStopIndex B).1 := by
      split <;> omega
    have h2 : (if (service.route.GetStopIndex A').1 ≥ (service.route.GetStopIndex B').1 then
        (service.route.GetStopIndex B').1 else (service.route.GetStopIndex A').1) =
        min (service.route.GetStopIndex A').1 (service.route.GetStopIndex B').1 := by
      split <;> omega
    rw [h1] at horig
    rw [h2]
    omega
  · have h1 : (if (service.route.GetStopIndex A).1 ≥ (service.route.GetStopIndex B).1 then
        (service.route.GetStopIndex A).1 else (service.route.GetStopIndex B).1) =
        max (service.route.GetStopIndex A).1 (service.route.GetStopIndex B).1 := by
      split <;> omega
    have h2 : (if (service.route.GetStopIndex A').1 ≥ (service.route.GetStopIndex B').1 then
        (service.route.GetStopIndex A').1 else (service.route.GetStopIndex B').1) =
        max (service.route.GetStopIndex A').1 (service.route.GetStopIndex B').1 := by
      split <;> omega
    rw [h1] at hdest
    rw [h2]
    omega

theorem C2_amended_witness :
    (min (svcABC.route.GetStopIndex "A").1 (svcABC.route.GetStopIndex "C").1 ≤
     min (svcABC.route.GetStopIndex "A").1 (svcABC.route.GetStopIndex "B").1) ∧
    ∀ p ∈ sysC2.GetPassengersBetweenStations "S" "A" "C" dC2,
      p ∈ sysC2.GetPassengersBetweenStations "S" "A" "B" dC2 :=
  ⟨by decide,
   C2_amended_monotonicity sysC2 "S" "A" "C" "A" "B" dC2 svcABC
     (by decide) (by decide) (by decide) (by decide) (by decide)
     (by decide) (by decide)⟩

end Ticketing
